import Mathlib

/-!
Shallow embedding of the development TLS reverse proxy in
`src/commands/dev/gcs/server.rs`: the connection-accept / TLS-handshake
filter loop (`serve`, lines 96-115), the per-request service closure
(`serve`, lines 43-88), the backend URL construction (`get_preview_url`,
lines 136-138) and the outbound request builder (`preview_request`,
lines 140-167).

Machinery external to this repository (hyper's URI parsing and header-value
validation) and repository code not present under `src/` (the
`get_path_as_str` utility and the two header transforms of
`headers.rs`) are modelled from the specification; each such definition
says so in its doc comment.  Stateful Rust code becomes explicit value
passing; `.expect(...)` panics become the `fatal` constructor of `PanicOr`;
fallible operations return `Option` or `Except`.
-/

namespace Gcs

/-- The fixed preview backend host (`PREVIEW_HOST`, server.rs line 19). -/
def PREVIEW_HOST : String := "rawhttp.cloudflareworkers.com"

/-- A parsed URI as used by the proxy: scheme, authority, and the
path-and-query portion kept verbatim as a string. -/
structure Uri where
  scheme : String
  authority : String
  pathAndQuery : String
deriving DecidableEq

/-- Header maps, as association lists of (lowercased name, value) pairs.
hyper normalizes header names to lowercase; the proxy only ever inserts
the static lowercase names `host` and `cf-ew-preview`. -/
abbrev Headers := List (String × String)

/-- `HeaderMap::insert`: replace every existing entry for name `k` with the
single entry `(k, v)`. -/
def insertHeader (hs : Headers) (k v : String) : Headers :=
  hs.filter (fun p => p.1 != k) ++ [(k, v)]

/-- Look up the (first) value stored under name `k`. -/
def getHeader (hs : Headers) (k : String) : Option String :=
  (hs.filter (fun p => p.1 == k)).head?.map (fun p => p.2)

/-- Request head: method, URI, headers and protocol version
(hyper's `request::Parts`).  The version string carries its debug
rendering, e.g. `HTTP/1.1`. -/
structure Parts where
  method : String
  uri : Uri
  headers : Headers
  version : String
deriving DecidableEq

/-- An HTTP request split into head and body (`Request::from_parts`). -/
structure Request (β : Type) where
  parts : Parts
  body : β
deriving DecidableEq

/-- Response head: status code and headers (hyper's `response::Parts`). -/
structure RespParts where
  status : Nat
  headers : Headers
deriving DecidableEq

/-- An HTTP response split into head and body. -/
structure Response (β : Type) where
  parts : RespParts
  body : β
deriving DecidableEq

/-- Result of Rust code that can panic (`.expect(msg)`): either a value or
a panic carrying the panic message. -/
inductive PanicOr (α : Type) where
  | ok : α → PanicOr α
  | fatal : String → PanicOr α
deriving DecidableEq

/-- Modelled from the spec: `get_path_as_str` (src/commands/dev/utils.rs,
not under src/) returns the path-and-query portion of a URI verbatim —
"we don't want to send localhost:8787/path, just /path"; "path and query
copied verbatim from the inbound request". -/
def get_path_as_str (u : Uri) : String := u.pathAndQuery

/-- Modelled from the spec: validity of a character in a hyper header
value (`HeaderValue::from_str`, external): horizontal tab or any
character that is not a control character (codepoint at least 0x20 and
not DEL). -/
def validHeaderValueChar (c : Char) : Bool :=
  c == '\t' || (decide (0x20 ≤ c.toNat) && decide (c.toNat ≠ 0x7f))

/-- Modelled from the spec: `HeaderValue::from_str` (external) succeeds
exactly when every character of the string is permitted in a header
value. -/
def headerValueFromStr (s : String) : Option String :=
  if s.data.all validHeaderValueChar then some s else none

/-- Modelled from the spec: a character acceptable inside a URI — visible
ASCII. -/
def validUriChar (c : Char) : Bool :=
  decide (0x20 < c.toNat) && decide (c.toNat < 0x7f)

/-- A character that terminates the authority component of a URI. -/
def isAuthorityEnd (c : Char) : Bool :=
  c == '/' || c == '?' || c == '#'

/-- Split a character list into the authority component and the rest
(beginning at the first `/`, `?` or `#`, if any). -/
def splitAuthority : List Char → List Char × List Char
  | [] => ([], [])
  | c :: cs =>
      if isAuthorityEnd c then ([], c :: cs)
      else
        let p := splitAuthority cs
        (c :: p.1, p.2)

/-- A non-empty authority of valid URI characters. -/
def authorityOk (a : List Char) : Bool :=
  !a.isEmpty && a.all validUriChar

/-- Modelled from the spec: hyper URI parsing (`str::parse::<Uri>`,
external), restricted to the `https` absolute form the proxy builds:
scheme `https`, then a non-empty authority, then the path-and-query;
construction fails exactly when the string is malformed. -/
def parseUriChars : List Char → Option Uri
  | 'h' :: 't' :: 't' :: 'p' :: 's' :: ':' :: '/' :: '/' :: rest =>
      let p := splitAuthority rest
      if authorityOk p.1 && p.2.all validUriChar then
        some ⟨"https", ⟨p.1⟩, ⟨p.2⟩⟩
      else none
  | _ => none

/-- Modelled from the spec: hyper URI parsing on a string. -/
def parseUri (s : String) : Option Uri := parseUriChars s.data

/-- `get_preview_url` (server.rs 136-138): format
`https://<PREVIEW_HOST><path_string>` and parse it; `InvalidUri` is
modelled as `none`. -/
def get_preview_url (path_string : String) : Option Uri :=
  parseUri ("https://" ++ PREVIEW_HOST ++ path_string)

/-- A well-formed path-and-query string: visible ASCII characters, and
either empty or beginning with `/` (origin form). -/
def wellFormedPathAndQuery (s : String) : Bool :=
  s.data.all validUriChar &&
    match s.data with
    | [] => true
    | c :: _ => c == '/'

/-- `preview_request` (server.rs 140-167) up to the dispatch: builds the
outbound request that is handed to `client.request` at line 166 (the
dispatch itself is modelled in `handle_request` by applying the client
to this request).  `sreq` is the outbound header transform
`structure_request` (headers.rs, not under src/), modelled from the
spec as `outbound(mutable request-parts) -> Result<(), Error>`: it
yields the mutated parts together with an optional error; the call site
(line 150) is a bare statement, so the error component is never
consumed.  The two `.expect(...)` calls (lines 159 and 162) become
`fatal` outcomes, in source order: the preview-id header is built
before the URI is parsed.  The path string is read from the original
URI (line 147) before the transform runs (line 150). -/
def preview_request {β : Type} (sreq : Parts → Parts × Option String)
    (req : Request β) (preview_id : String) : PanicOr (Request β) :=
  match headerValueFromStr preview_id with
  | none => .fatal "Could not create header for preview id"
  | some v =>
    match get_preview_url (get_path_as_str req.parts.uri) with
    | none => .fatal "Could not get preview url"
    | some u =>
        .ok ⟨{ (sreq req.parts).1 with
               uri := u,
               headers := insertHeader
                 (insertHeader ((sreq req.parts).1.headers) "host" PREVIEW_HOST)
                 "cf-ew-preview" v }, req.body⟩

/-- The immutable server configuration (`ServerConfig`,
src/commands/dev/server_config.rs, not under src/; modelled from the
spec: an opaque immutable `\x7blistening_address, host\x7d` value). -/
structure ServerConfig where
  listening_address : String
  host : String
deriving DecidableEq

deriving instance DecidableEq for Except

/-- The log line of server.rs lines 78-86:
`[<timestamp>] <METHOD> <host><path> <version> <status>`.  The status
rendering is modelled as the numeric code. -/
def logLine (now method host path version : String) (status : Nat) : String :=
  "[" ++ now ++ "] " ++ method ++ " " ++ host ++ path ++ " " ++ version
    ++ " " ++ toString status

/-- Outcome of one invocation of the per-request service closure: the
request-level result (response or error value), the log lines printed,
and how many times the backend client was invoked. -/
structure HandlerResult (β : Type) where
  result : Except String (Response β)
  logs : List String
  clientCalls : Nat
deriving DecidableEq

/-- The per-request service closure of `serve` (server.rs 43-88).
`dresp` is the inbound transform `destructure_response` (headers.rs,
not under src/), modelled from the spec as
`inbound(mutable response-parts) -> Result<(), Error>` and called with
`?` at line 73; `client` models `client.request(req).await`; `now` is
the formatted arrival timestamp; `preview_id` is the snapshot of the
shared preview id taken at line 46.  Method, path and version are
captured from the original request (lines 47-60) before
`preview_request` consumes it. -/
def handle_request {β : Type} (sreq : Parts → Parts × Option String)
    (dresp : RespParts → Except String RespParts)
    (client : Request β → Except String (Response β))
    (server_config : ServerConfig) (preview_id : String) (now : String)
    (req : Request β) : PanicOr (HandlerResult β) :=
  match preview_request sreq req preview_id with
  | .fatal m => .fatal m
  | .ok out =>
    match client out with
    | .error e => .ok ⟨.error e, [], 1⟩
    | .ok resp =>
      match dresp resp.parts with
      | .error e => .ok ⟨.error e, [], 1⟩
      | .ok parts2 =>
        .ok ⟨.ok ⟨parts2, resp.body⟩,
             [logLine now req.parts.method server_config.host
                (get_path_as_str req.parts.uri) req.parts.version parts2.status],
             1⟩

/-- One request processed against the shared preview-id cell.  Line 46
(`preview_id.lock().unwrap().to_owned()`) takes the cell's value at the
start of the request (lock, clone, release); `cellLater` is the cell's
value at any later point during the request — the closure holds only
its own clone and never reads the cell again. -/
def serve_request {β : Type} (sreq : Parts → Parts × Option String)
    (dresp : RespParts → Except String RespParts)
    (client : Request β → Except String (Response β))
    (server_config : ServerConfig)
    (cellAtStart cellLater : String) (now : String) (req : Request β) :
    PanicOr (HandlerResult β) :=
  let _ := cellLater
  handle_request sreq dresp client server_config cellAtStart now req

/-- One step of the accept-and-filter loop: the log lines printed and the
item (if any) emitted into the session sequence. -/
structure StepOut (τ : Type) where
  logs : List String
  emit : Option (Except String τ)
deriving DecidableEq

/-- The `filter_map` closure of the accept loop (server.rs 98-114).  On a
TCP accept error: print and return `Some(Err(e))` (lines 101-104).  On
an accepted connection: attempt the TLS handshake; on success emit the
stream (line 107), on failure print the error, print the remediation
hint, and emit nothing (lines 108-112).  `tls` models
`tls_acceptor.accept`; the error type is its message string. -/
def accept_step {σ τ : Type} (tls : σ → Except String τ) :
    Except String σ → StepOut τ
  | .error e => ⟨["Failed to accept client"], some (.error e)⟩
  | .ok c =>
      match tls c with
      | .ok x => ⟨[], some (.ok x)⟩
      | .error e => ⟨["Client connection error " ++ e,
                      "Make sure to use https and `--insecure` with curl"], none⟩

/-- The item sequence produced by `incoming_tls_stream` (server.rs
96-115) over a finite run of raw accept results: `filter_map` keeps
exactly the items `accept_step` emits. -/
def incoming_tls_stream {σ τ : Type} (tls : σ → Except String τ) :
    List (Except String σ) → List (Except String τ)
  | [] => []
  | x :: xs =>
      match (accept_step tls x).emit with
      | some y => y :: incoming_tls_stream tls xs
      | none => incoming_tls_stream tls xs

/-! ### Concrete fixtures used by witnesses and counterexamples -/

/-- An outbound transform that changes nothing and reports no error. -/
def sreqId : Parts → Parts × Option String := fun p => (p, none)

/-- An outbound transform that changes nothing but reports a failure. -/
def sreqFail : Parts → Parts × Option String :=
  fun p => (p, some "outbound transform failed")

/-- An inbound transform that changes nothing. -/
def drespId : RespParts → Except String RespParts := fun p => .ok p

/-- An inbound transform that always fails. -/
def drespFail : RespParts → Except String RespParts :=
  fun _ => .error "inbound transform failed"

/-- A backend client that always answers 200 with a fixed body. -/
def clientOk : Request String → Except String (Response String) :=
  fun _ => .ok ⟨⟨200, []⟩, "backend body"⟩

/-- A backend client that always fails at the transport level. -/
def clientErr : Request String → Except String (Response String) :=
  fun _ => .error "connection refused"

/-- A TLS acceptor that rejects the connection named `bad`. -/
def tls0 : String → Except String String :=
  fun s => if s == "bad" then .error "handshake failed" else .ok s

/-- A sample server configuration. -/
def cfg0 : ServerConfig := ⟨"127.0.0.1:8787", "localhost:8787"⟩

/-- A sample well-formed inbound request. -/
def req0 : Request String :=
  ⟨⟨"GET", ⟨"https", "localhost:8787", "/foo?x=1"⟩, [], "HTTP/1.1"⟩, "client body"⟩

/-- An inbound request whose path-and-query is malformed (contains spaces). -/
def reqBad : Request String :=
  ⟨⟨"GET", ⟨"https", "localhost:8787", " bad path"⟩, [], "HTTP/1.1"⟩, "client body"⟩

/-- The outbound request `preview_request` builds from `req0` and
preview id `abc`. -/
def out0 : Request String :=
  ⟨⟨"GET", ⟨"https", PREVIEW_HOST, "/foo?x=1"⟩,
    [("host", PREVIEW_HOST), ("cf-ew-preview", "abc")], "HTTP/1.1"⟩, "client body"⟩

/-- A sample formatted timestamp. -/
def now0 : String := "2020-04-20 15:25:54"

example : preview_request sreqId req0 "abc" = .ok out0 := by decide
example : get_preview_url " bad path" = none := by decide
example : preview_request sreqId reqBad "abc" = .fatal "Could not get preview url" := by
  decide
example : get_preview_url "/foo?x=1" = some ⟨"https", PREVIEW_HOST, "/foo?x=1"⟩ := by
  decide

/-! ### Helper lemmas -/

theorem filter_bne_filter_beq (hs : Headers) (k : String) :
    (hs.filter (fun p => p.1 != k)).filter (fun p => p.1 == k) = [] := by
  induction hs with
  | nil => rfl
  | cons a t ih =>
      by_cases h : a.1 = k
      · simp [List.filter_cons, h, ih]
      · simp [List.filter_cons, h, ih]

theorem getHeader_insertHeader_self (hs : Headers) (k v : String) :
    getHeader (insertHeader hs k v) k = some v := by
  unfold getHeader insertHeader
  rw [List.filter_append, filter_bne_filter_beq]
  simp

theorem getHeader_insertHeader_ne (hs : Headers) (k v k2 : String) (h : k2 ≠ k) :
    getHeader (insertHeader hs k v) k2 = getHeader hs k2 := by
  unfold getHeader insertHeader
  rw [List.filter_append]
  have h2 : (hs.filter (fun p => p.1 != k)).filter (fun p => p.1 == k2)
      = hs.filter (fun p => p.1 == k2) := by
    induction hs with
    | nil => rfl
    | cons a t ih =>
        have hk : ¬ (k = k2) := fun hh => h hh.symm
        by_cases ha : a.1 = k
        · have hb : ¬ (a.1 = k2) := by rw [ha]; exact hk
          simp [List.filter_cons, ha, hb, ih, hk]
        · by_cases hb : a.1 = k2 <;> simp [List.filter_cons, ha, hb, ih, hk, h]
  rw [h2]
  have h3 : List.filter (fun p => p.1 == k2) [(k, v)] = [] := by
    simp [List.filter_cons]
    exact fun hh => h hh.symm
  rw [h3]
  simp

theorem splitAuthority_append (a b : List Char)
    (ha : ∀ c ∈ a, isAuthorityEnd c = false)
    (hb : b = [] ∨ ∃ c cs, b = c :: cs ∧ isAuthorityEnd c = true) :
    splitAuthority (a ++ b) = (a, b) := by
  induction a with
  | nil =>
      simp only [List.nil_append]
      rcases hb with rfl | ⟨c, cs, rfl, hc⟩
      · rfl
      · unfold splitAuthority
        rw [hc]
        simp
  | cons x xs ih =>
      have hx : isAuthorityEnd x = false := ha x (List.mem_cons_self x xs)
      have ih' := ih fun c hc => ha c (List.mem_cons_of_mem x hc)
      simp only [List.cons_append]
      unfold splitAuthority
      rw [hx]
      simp [ih']

theorem get_preview_url_wf (P : String) (h : wellFormedPathAndQuery P = true) :
    get_preview_url P = some ⟨"https", PREVIEW_HOST, P⟩ := by
  unfold wellFormedPathAndQuery at h
  rw [Bool.and_eq_true] at h
  unfold get_preview_url parseUri
  have hdata : ("https://" ++ PREVIEW_HOST ++ P).data
      = 'h' :: 't' :: 't' :: 'p' :: 's' :: ':' :: '/' :: '/'
          :: (PREVIEW_HOST.data ++ P.data) := rfl
  rw [hdata]
  have hsplit : splitAuthority (PREVIEW_HOST.data ++ P.data)
      = (PREVIEW_HOST.data, P.data) := by
    apply splitAuthority_append
    · decide
    · cases hP : P.data with
      | nil => exact Or.inl rfl
      | cons c cs =>
          refine Or.inr ⟨c, cs, rfl, ?_⟩
          have h2 := h.2
          rw [hP] at h2
          have hc : c = '/' := by
            have := of_decide_eq_true (by exact_mod_cast h2)
            exact this
          rw [hc]
          rfl
  simp only [parseUriChars, hsplit]
  have hcond : (authorityOk PREVIEW_HOST.data && P.data.all validUriChar) = true := by
    rw [Bool.and_eq_true]
    exact ⟨by decide, h.1⟩
  rw [if_pos hcond]

theorem headerValueFromStr_eq_some (s v : String)
    (h : headerValueFromStr s = some v) : v = s := by
  unfold headerValueFromStr at h
  split at h
  · injection h with h'
    exact h'.symm
  · cases h

theorem headerValueFromStr_of_valid (s : String)
    (h : s.data.all validHeaderValueChar = true) :
    headerValueFromStr s = some s := by
  unfold headerValueFromStr
  rw [if_pos h]

/-- Inversion: a successful `preview_request` forces the shape of the
outbound request. -/
theorem preview_request_eq_ok {β : Type} {sreq : Parts → Parts × Option String}
    {req : Request β} {pid : String} {out : Request β}
    (h : preview_request sreq req pid = PanicOr.ok out) :
    ∃ u, get_preview_url (get_path_as_str req.parts.uri) = some u ∧
      headerValueFromStr pid = some pid ∧
      out = ⟨{ (sreq req.parts).1 with
               uri := u,
               headers := insertHeader
                 (insertHeader ((sreq req.parts).1.headers) "host" PREVIEW_HOST)
                 "cf-ew-preview" pid }, req.body⟩ := by
  unfold preview_request at h
  cases hv : headerValueFromStr pid with
  | none => rw [hv] at h; cases h
  | some v =>
      have hvp : v = pid := headerValueFromStr_eq_some pid v hv
      subst hvp
      rw [hv] at h
      cases hu : get_preview_url (get_path_as_str req.parts.uri) with
      | none => rw [hu] at h; cases h
      | some u =>
          rw [hu] at h
          refine ⟨u, rfl, rfl, ?_⟩
          injection h with h'
          exact h'.symm

/-- With a well-formed path and a valid preview id, `preview_request`
succeeds and builds exactly this outbound request. -/
theorem preview_request_ok_build {β : Type} (sreq : Parts → Parts × Option String)
    (req : Request β) (pid : String)
    (hwf : wellFormedPathAndQuery (get_path_as_str req.parts.uri) = true)
    (hpid : pid.data.all validHeaderValueChar = true) :
    preview_request sreq req pid = PanicOr.ok
      ⟨{ (sreq req.parts).1 with
         uri := ⟨"https", PREVIEW_HOST, get_path_as_str req.parts.uri⟩,
         headers := insertHeader
           (insertHeader ((sreq req.parts).1.headers) "host" PREVIEW_HOST)
           "cf-ew-preview" pid }, req.body⟩ := by
  have hv := headerValueFromStr_of_valid pid hpid
  have hu := get_preview_url_wf _ hwf
  simp only [preview_request, hv, hu]

/-! ### Claim C1 — accept errors (corrected) -/

/-- Claim C1, counterexample: on a TCP accept error the filter closure of
the accept loop emits the error as an item of the session sequence
(`Some(Err(e))`, server.rs line 103), contradicting the claim that the
accept error is not propagated as an item of the established-session
sequence. -/
theorem c1_counterexample :
    (accept_step (fun c : String => Except.ok c)
        (Except.error "connection reset")).emit
      = some (Except.error "connection reset") := rfl

/-- Claim C1, amended: for every TCP accept error, the accept loop logs
the failure and propagates the error as an item of the session
sequence; the filtering itself does not stop — subsequent incoming
connections are processed unchanged. -/
theorem c1_accept_error_logged_and_propagated {σ τ : Type}
    (tls : σ → Except String τ) (e : String) (rest : List (Except String σ)) :
    accept_step tls (Except.error e)
      = ⟨["Failed to accept client"], some (Except.error e)⟩ ∧
    incoming_tls_stream tls (Except.error e :: rest)
      = Except.error e :: incoming_tls_stream tls rest :=
  ⟨rfl, rfl⟩

/-! ### Claim C4 — handshake failures are dropped and logged -/

/-- Claim C4: for every accepted raw connection whose TLS handshake
fails, the loop logs the handshake error together with the remediation
hint about using TLS with an insecure-trust override, emits nothing
into the session sequence (neither a session nor an error), and
subsequent connections are processed unchanged. -/
theorem c4_handshake_failure_dropped {σ τ : Type} (tls : σ → Except String τ)
    (c : σ) (e : String) (rest : List (Except String σ))
    (h : tls c = Except.error e) :
    accept_step tls (Except.ok c)
      = ⟨["Client connection error " ++ e,
          "Make sure to use https and `--insecure` with curl"], none⟩ ∧
    incoming_tls_stream tls (Except.ok c :: rest)
      = incoming_tls_stream tls rest := by
  have hstep : accept_step tls (Except.ok c)
      = ⟨["Client connection error " ++ e,
          "Make sure to use https and `--insecure` with curl"], none⟩ := by
    simp only [accept_step, h]
  refine ⟨hstep, ?_⟩
  simp only [incoming_tls_stream, hstep]

/-- Witness for C4 at a concrete failing handshake followed by a second
connection. -/
theorem c4_handshake_failure_dropped_witness :
    tls0 "bad" = Except.error "handshake failed" ∧
    (accept_step tls0 (Except.ok "bad")
        = ⟨["Client connection error " ++ "handshake failed",
            "Make sure to use https and `--insecure` with curl"], none⟩ ∧
      incoming_tls_stream tls0 (Except.ok "bad" :: [Except.ok "good"])
        = incoming_tls_stream tls0 [Except.ok "good"]) :=
  ⟨by decide, c4_handshake_failure_dropped tls0 "bad" "handshake failed"
      [Except.ok "good"] (by decide)⟩

/-! ### Claim C2 — backend URI preserves the path verbatim -/

/-- Claim C2: for every well-formed inbound request whose original URI
has path-and-query string P, and every preview id accepted as a header
value, the request dispatched to the backend has URI exactly
`https://rawhttp.cloudflareworkers.com` followed by P: scheme `https`,
authority replaced by the fixed backend host, and the original
path-and-query preserved verbatim. -/
theorem c2_backend_uri {β : Type} (sreq : Parts → Parts × Option String)
    (req : Request β) (pid P : String)
    (hP : get_path_as_str req.parts.uri = P)
    (hwf : wellFormedPathAndQuery P = true)
    (hpid : pid.data.all validHeaderValueChar = true) :
    ∃ out, preview_request sreq req pid = PanicOr.ok out ∧
      out.parts.uri = ⟨"https", PREVIEW_HOST, P⟩ := by
  subst hP
  exact ⟨_, preview_request_ok_build sreq req pid hwf hpid, rfl⟩

/-- Witness for C2 at a concrete request with path `/foo?x=1`. -/
theorem c2_backend_uri_witness :
    ∃ out, preview_request sreqId req0 "abc" = PanicOr.ok out ∧
      out.parts.uri = ⟨"https", PREVIEW_HOST, "/foo?x=1"⟩ :=
  c2_backend_uri sreqId req0 "abc" "/foo?x=1" rfl (by decide) (by decide)

/-! ### Claim C3 — host and session-id headers from the snapshot -/

/-- Claim C3: every dispatched request carries a `host` header equal to
the fixed backend hostname and a `cf-ew-preview` header equal to the
PreviewSessionId value snapshotted under the lock at the start of the
request (server.rs line 46); request processing depends only on that
snapshot, so a later change of the shared cell does not alter a
request already being processed. -/
theorem c3_headers_from_snapshot {β : Type} (sreq : Parts → Parts × Option String)
    (dresp : RespParts → Except String RespParts)
    (client : Request β → Except String (Response β))
    (server_config : ServerConfig)
    (cellAtStart cellLater cellLater' now : String)
    (req out : Request β)
    (hok : preview_request sreq req cellAtStart = PanicOr.ok out) :
    getHeader out.parts.headers "host" = some PREVIEW_HOST ∧
    getHeader out.parts.headers "cf-ew-preview" = some cellAtStart ∧
    serve_request sreq dresp client server_config cellAtStart cellLater now req
      = serve_request sreq dresp client server_config cellAtStart cellLater' now req := by
  obtain ⟨u, hu, hv, rfl⟩ := preview_request_eq_ok hok
  dsimp only
  refine ⟨?_, ?_, rfl⟩
  · rw [getHeader_insertHeader_ne _ _ _ _ (by decide), getHeader_insertHeader_self]
  · exact getHeader_insertHeader_self _ _ _

/-- Witness for C3 at a concrete request, snapshot `abc`, and two
different later cell values. -/
theorem c3_headers_from_snapshot_witness :
    preview_request sreqId req0 "abc" = PanicOr.ok out0 ∧
    (getHeader out0.parts.headers "host" = some PREVIEW_HOST ∧
     getHeader out0.parts.headers "cf-ew-preview" = some "abc" ∧
     serve_request sreqId drespId clientOk cfg0 "abc" "later-1" now0 req0
       = serve_request sreqId drespId clientOk cfg0 "abc" "later-2" now0 req0) :=
  ⟨by decide, c3_headers_from_snapshot sreqId drespId clientOk cfg0 "abc"
      "later-1" "later-2" now0 req0 out0 (by decide)⟩

/-! ### Claim C5 — only transport failures are errors; no retry -/

/-- Claim C5: for every backend dispatch, only transport-level failures
produce an error value for the request — a transport failure surfaces
as the request's error with the backend client invoked exactly once
(no retry) — while a backend response with any status whatsoever (2xx
or not) is not an error: it is returned, after the inbound transform,
as the reply, again with exactly one client call. -/
theorem c5_transport_only_errors {β : Type} (sreq : Parts → Parts × Option String)
    (dresp : RespParts → Except String RespParts)
    (client : Request β → Except String (Response β))
    (server_config : ServerConfig) (pid now : String)
    (req out : Request β)
    (hok : preview_request sreq req pid = PanicOr.ok out) :
    (∀ e, client out = Except.error e →
      handle_request sreq dresp client server_config pid now req
        = PanicOr.ok ⟨Except.error e, [], 1⟩) ∧
    (∀ resp parts2, client out = Except.ok resp →
      dresp resp.parts = Except.ok parts2 →
      handle_request sreq dresp client server_config pid now req
        = PanicOr.ok ⟨Except.ok ⟨parts2, resp.body⟩,
            [logLine now req.parts.method server_config.host
              (get_path_as_str req.parts.uri) req.parts.version parts2.status],
            1⟩) := by
  constructor
  · intro e he
    simp only [handle_request, hok, he]
  · intro resp parts2 hc hd
    simp only [handle_request, hok, hc, hd]

/-- Witness for C5: a transport failure at a concrete request surfaces
as that request's error value, with one client call. -/
theorem c5_transport_only_errors_witness :
    preview_request sreqId req0 "abc" = PanicOr.ok out0 ∧
    clientErr out0 = Except.error "connection refused" ∧
    handle_request sreqId drespId clientErr cfg0 "abc" now0 req0
      = PanicOr.ok ⟨Except.error "connection refused", [], 1⟩ :=
  ⟨by decide, by decide,
    (c5_transport_only_errors sreqId drespId clientErr cfg0 "abc" now0 req0 out0
        (by decide)).1 "connection refused" (by decide)⟩

/-! ### Claim C6 — URI construction failure is a panic, unreachable on
well-formed paths -/

/-- Claim C6: if the rewritten URI string cannot be parsed, the failure
is a panic for that request ("Could not get preview url") — it is not
converted into a normal error value and the handler produces no result
for the request — while under the precondition of a well-formed input
path the construction always succeeds, so the failure branch is
unreachable. -/
theorem c6_uri_construction {β : Type} (sreq : Parts → Parts × Option String)
    (dresp : RespParts → Except String RespParts)
    (client : Request β → Except String (Response β))
    (server_config : ServerConfig) (now : String)
    (req : Request β) (pid : String)
    (hpid : pid.data.all validHeaderValueChar = true) :
    (get_preview_url (get_path_as_str req.parts.uri) = none →
      preview_request sreq req pid = PanicOr.fatal "Could not get preview url" ∧
      handle_request sreq dresp client server_config pid now req
        = PanicOr.fatal "Could not get preview url") ∧
    (wellFormedPathAndQuery (get_path_as_str req.parts.uri) = true →
      ∃ u, get_preview_url (get_path_as_str req.parts.uri) = some u) := by
  have hv := headerValueFromStr_of_valid pid hpid
  constructor
  · intro hnone
    have hp : preview_request sreq req pid
        = PanicOr.fatal "Could not get preview url" := by
      simp only [preview_request, hv, hnone]
    exact ⟨hp, by simp only [handle_request, hp]⟩
  · intro hwf
    exact ⟨_, get_preview_url_wf _ hwf⟩

/-- Witness for C6 at a concrete request whose path contains spaces. -/
theorem c6_uri_construction_witness :
    ("abc".data.all validHeaderValueChar = true) ∧
    (get_preview_url (get_path_as_str reqBad.parts.uri) = none) ∧
    (preview_request sreqId reqBad "abc"
        = PanicOr.fatal "Could not get preview url" ∧
      handle_request sreqId drespId clientOk cfg0 "abc" now0 reqBad
        = PanicOr.fatal "Could not get preview url") :=
  ⟨by decide, by decide,
    (c6_uri_construction sreqId drespId clientOk cfg0 now0 reqBad "abc"
        (by decide)).1 (by decide)⟩

/-! ### Claim C7 — header transform failures (corrected) -/

/-- Claim C7, counterexample: an outbound-transform failure does not
surface as an error value — at this concrete request the outbound
transform reports a failure, yet the request is dispatched and the
exchange completes with a successful response. -/
theorem c7_counterexample :
    (sreqFail req0.parts).2 = some "outbound transform failed" ∧
    handle_request sreqFail drespId clientOk cfg0 "abc" now0 req0
      = PanicOr.ok ⟨Except.ok ⟨⟨200, []⟩, "backend body"⟩,
          [logLine now0 "GET" "localhost:8787" "/foo?x=1" "HTTP/1.1" 200],
          1⟩ :=
  ⟨rfl, by decide⟩

/-- Claim C7, amended: the inbound transform has signature
`Result<(), Error>` and its failure surfaces as an error value aborting
only that single request/response cycle; the outbound transform is
invoked for effect only — its error component is discarded at the call
site (server.rs line 150) — so an outbound failure never surfaces as an
error value and leaves the built request unchanged. -/
theorem c7_inbound_only_errors {β : Type} (sreq : Parts → Parts × Option String)
    (dresp : RespParts → Except String RespParts)
    (client : Request β → Except String (Response β))
    (server_config : ServerConfig) (pid now : String)
    (req out : Request β)
    (hok : preview_request sreq req pid = PanicOr.ok out) :
    (∀ resp e, client out = Except.ok resp → dresp resp.parts = Except.error e →
      handle_request sreq dresp client server_config pid now req
        = PanicOr.ok ⟨Except.error e, [], 1⟩) ∧
    (∀ e2, preview_request (fun p => ((sreq p).1, some e2)) req pid
        = PanicOr.ok out) := by
  constructor
  · intro resp e hc hd
    simp only [handle_request, hok, hc, hd]
  · intro e2
    exact hok

/-- Witness for C7 (amended): a failing inbound transform aborts exactly
its own request/response cycle with an error value. -/
theorem c7_inbound_only_errors_witness :
    preview_request sreqId req0 "abc" = PanicOr.ok out0 ∧
    clientOk out0 = Except.ok ⟨⟨200, []⟩, "backend body"⟩ ∧
    drespFail (⟨200, []⟩ : RespParts) = Except.error "inbound transform failed" ∧
    handle_request sreqId drespFail clientOk cfg0 "abc" now0 req0
      = PanicOr.ok ⟨Except.error "inbound transform failed", [], 1⟩ :=
  ⟨by decide, by decide, by decide,
    (c7_inbound_only_errors sreqId drespFail clientOk cfg0 "abc" now0 req0 out0
        (by decide)).1 ⟨⟨200, []⟩, "backend body"⟩ "inbound transform failed"
      (by decide) (by decide)⟩

/-! ### Claim C8 — the log line -/

/-- Claim C8: every completed exchange emits exactly one log line, of
the form `[timestamp] METHOD <presented-host><path> <version>
<status>`, where method, path and protocol version are those captured
from the original client request before rewriting, the host is the
configured presented host (not the backend host), and the status is
that of the rewritten response. -/
theorem c8_log_line {β : Type} (sreq : Parts → Parts × Option String)
    (dresp : RespParts → Except String RespParts)
    (client : Request β → Except String (Response β))
    (server_config : ServerConfig) (pid now : String)
    (req out : Request β) (resp : Response β) (parts2 : RespParts)
    (hok : preview_request sreq req pid = PanicOr.ok out)
    (hc : client out = Except.ok resp)
    (hd : dresp resp.parts = Except.ok parts2) :
    handle_request sreq dresp client server_config pid now req
      = PanicOr.ok ⟨Except.ok ⟨parts2, resp.body⟩,
          [logLine now req.parts.method server_config.host
            (get_path_as_str req.parts.uri) req.parts.version parts2.status],
          1⟩ ∧
    logLine now req.parts.method server_config.host
        (get_path_as_str req.parts.uri) req.parts.version parts2.status
      = "[" ++ now ++ "] " ++ req.parts.method ++ " " ++ server_config.host
          ++ get_path_as_str req.parts.uri ++ " " ++ req.parts.version
          ++ " " ++ toString parts2.status := by
  constructor
  · simp only [handle_request, hok, hc, hd]
  · rfl

/-- Witness for C8 at a concrete completed exchange. -/
theorem c8_log_line_witness :
    handle_request sreqId drespId clientOk cfg0 "abc" now0 req0
      = PanicOr.ok ⟨Except.ok ⟨⟨200, []⟩, "backend body"⟩,
          [logLine now0 req0.parts.method cfg0.host
            (get_path_as_str req0.parts.uri) req0.parts.version 200], 1⟩ ∧
    logLine now0 req0.parts.method cfg0.host (get_path_as_str req0.parts.uri)
        req0.parts.version 200
      = "[" ++ now0 ++ "] " ++ req0.parts.method ++ " " ++ cfg0.host
          ++ get_path_as_str req0.parts.uri ++ " " ++ req0.parts.version
          ++ " " ++ toString 200 :=
  c8_log_line sreqId drespId clientOk cfg0 "abc" now0 req0 out0
    ⟨⟨200, []⟩, "backend body"⟩ ⟨200, []⟩ (by decide) (by decide) (by decide)

/-! ### Claim C9 — invalid preview id panics; valid id dispatches -/

/-- Claim C9: for every PreviewSessionId string containing a character
not permitted in a header value, `preview_request` panics while
building the `cf-ew-preview` header ("Could not create header for
preview id") instead of returning an error value; when the session id
is a valid header value (the inbound request being well formed), that
panic branch is unreachable and `preview_request` dispatches the
request. -/
theorem c9_invalid_preview_id_panics {β : Type}
    (sreq : Parts → Parts × Option String) (req : Request β) (pid : String) :
    (pid.data.all validHeaderValueChar = false →
      preview_request sreq req pid
        = PanicOr.fatal "Could not create header for preview id") ∧
    (pid.data.all validHeaderValueChar = true →
      wellFormedPathAndQuery (get_path_as_str req.parts.uri) = true →
      ∃ out, preview_request sreq req pid = PanicOr.ok out) := by
  constructor
  · intro hbad
    have hv : headerValueFromStr pid = none := by
      simp [headerValueFromStr, hbad]
    simp only [preview_request, hv]
  · intro hgood hwf
    exact ⟨_, preview_request_ok_build sreq req pid hwf hgood⟩

/-- Witness for C9: a session id containing a newline panics; a plain
ASCII session id dispatches. -/
theorem c9_invalid_preview_id_panics_witness :
    ("bad\nid".data.all validHeaderValueChar = false ∧
      preview_request sreqId req0 "bad\nid"
        = PanicOr.fatal "Could not create header for preview id") ∧
    ("abc".data.all validHeaderValueChar = true ∧
      wellFormedPathAndQuery (get_path_as_str req0.parts.uri) = true ∧
      ∃ out, preview_request sreqId req0 "abc" = PanicOr.ok out) :=
  ⟨⟨by decide, (c9_invalid_preview_id_panics sreqId req0 "bad\nid").1 (by decide)⟩,
   ⟨by decide, by decide,
     (c9_invalid_preview_id_panics sreqId req0 "abc").2 (by decide) (by decide)⟩⟩

/-! ### Claim C10 — bodies pass through unchanged -/

/-- Claim C10: the request body forwarded to the backend is exactly the
body received from the client, and the response body returned to the
client is exactly the body received from the backend — all rewriting
(outbound and inbound) acts on the parts only, never on the body. -/
theorem c10_body_frame {β : Type} (sreq : Parts → Parts × Option String)
    (dresp : RespParts → Except String RespParts)
    (client : Request β → Except String (Response β))
    (server_config : ServerConfig) (pid now : String)
    (req out : Request β)
    (hok : preview_request sreq req pid = PanicOr.ok out) :
    out.body = req.body ∧
    (∀ resp parts2, client out = Except.ok resp →
      dresp resp.parts = Except.ok parts2 →
      ∃ hr, handle_request sreq dresp client server_config pid now req
          = PanicOr.ok hr ∧
        ∃ final, hr.result = Except.ok final ∧ final.body = resp.body ∧
          final.parts = parts2) := by
  obtain ⟨u, hu, hv, rfl⟩ := preview_request_eq_ok hok
  refine ⟨rfl, ?_⟩
  intro resp parts2 hc hd
  have hh : handle_request sreq dresp client server_config pid now req
      = PanicOr.ok ⟨Except.ok ⟨parts2, resp.body⟩,
          [logLine now req.parts.method server_config.host
            (get_path_as_str req.parts.uri) req.parts.version parts2.status],
          1⟩ := by
    simp only [handle_request, hok, hc, hd]
  exact ⟨_, hh, ⟨parts2, resp.body⟩, rfl, rfl, rfl⟩

/-- Witness for C10 at a concrete exchange. -/
theorem c10_body_frame_witness :
    out0.body = req0.body ∧
    (∃ hr, handle_request sreqId drespId clientOk cfg0 "abc" now0 req0
        = PanicOr.ok hr ∧
      ∃ final, hr.result = Except.ok final ∧ final.body = "backend body" ∧
        final.parts = ⟨200, []⟩) := by
  have h := c10_body_frame sreqId drespId clientOk cfg0 "abc" now0 req0 out0
    (by decide)
  exact ⟨h.1, h.2 ⟨⟨200, []⟩, "backend body"⟩ ⟨200, []⟩ (by decide) (by decide)⟩

end Gcs
